import Mathlib

/-!
Shallow embedding of the Generation-III creature save-data codec of the
emerald-shiny-hunter repository, translated from `src/utils/memory.py`,
`src/utils/pokemon.py` and `src/constants/memory.py`, together with proofs
about the embedded functions.

The emulator memory bus is modelled as a function from addresses to bytes;
Python ints are modelled as `Nat` (or `Int` where negative values can arise),
and Python dicts as functions into `Option`.
-/

/-- The emulator memory bus: one byte per address (a well-formed memory has
every value `< 256`, which most results below do not even need). -/
def Mem : Type := Nat → Nat

/-- `read_u8` from `src/utils/memory.py`: read one byte. -/
def read_u8 (mem : Mem) (address : Nat) : Nat := mem address

/-- `read_u16` from `src/utils/memory.py`: little-endian 16-bit read,
`b0 | (b1 << 8)`. -/
def read_u16 (mem : Mem) (address : Nat) : Nat :=
  read_u8 mem address ||| (read_u8 mem (address + 1) <<< 8)

/-- `read_u32` from `src/utils/memory.py`: little-endian 32-bit read,
`b0 | (b1 << 8) | (b2 << 16) | (b3 << 24)`. -/
def read_u32 (mem : Mem) (address : Nat) : Nat :=
  read_u8 mem address ||| (read_u8 mem (address + 1) <<< 8) |||
    (read_u8 mem (address + 2) <<< 16) ||| (read_u8 mem (address + 3) <<< 24)

/-- `SUBSTRUCTURE_SIZE` from `src/constants/memory.py`. -/
def SUBSTRUCTURE_SIZE : Nat := 12

/-- `POKEMON_ENCRYPTED_OFFSET` from `src/constants/memory.py` (0x20). -/
def POKEMON_ENCRYPTED_OFFSET : Nat := 0x20

/-- `ENEMY_LEVEL_OFFSET` from `src/constants/memory.py` (0x54). -/
def ENEMY_LEVEL_OFFSET : Nat := 0x54

/-- `NUM_BOXES` from `src/constants/memory.py`. -/
def NUM_BOXES : Nat := 14

/-- `POKEMON_PER_BOX` from `src/constants/memory.py`. -/
def POKEMON_PER_BOX : Nat := 30

/-- `BOX_POKEMON_SIZE` from `src/constants/memory.py`. -/
def BOX_POKEMON_SIZE : Nat := 80

/-- `SUBSTRUCTURE_ORDERS` from `src/constants/memory.py`: the 24 substructure
permutations indexed by `pv % 24`. -/
def SUBSTRUCTURE_ORDERS : List String :=
  ["GAEM", "GAME", "GEAM", "GEMA", "GMAE", "GMEA",
   "AGEM", "AGME", "AEGM", "AEMG", "AMGE", "AMEG",
   "EGAM", "EGMA", "EAGM", "EAMG", "EMGA", "EMAG",
   "MGAE", "MGEA", "MAGE", "MAEG", "MEGA", "MEAG"]

/-- `get_substructure_order` from `src/utils/pokemon.py`:
`SUBSTRUCTURE_ORDERS[pv % 24]` (the index is always in bounds, so the
default is never returned). -/
def get_substructure_order (pv : Nat) : String :=
  SUBSTRUCTURE_ORDERS.getD (pv % 24) ""

/-- The XOR key `xor_key = otid ^ pv` with `otid = read_u32(core, base_addr + 4)`,
exactly as computed inside `decrypt_species` and `decrypt_ivs` in
`src/utils/pokemon.py`. -/
def xor_key (mem : Mem) (base_addr : Nat) : Nat :=
  read_u32 mem (base_addr + 4) ^^^ read_u32 mem base_addr

/-- The per-word decryption step `dec_val = enc_val ^ (otid ^ pv)` of
`src/utils/pokemon.py` (`decrypt_species` / `decrypt_ivs`). -/
def decrypt_word (enc_val otid pv : Nat) : Nat :=
  enc_val ^^^ (otid ^^^ pv)

/-- `calculate_shiny_value` from `src/utils/pokemon.py`.  Returns
`(is_shiny, shiny_value, details)`, with the details dict modelled as an
association list in the source's insertion order. -/
def calculate_shiny_value (tid sid pv : Nat) : Bool × Nat × List (String × Nat) :=
  let pv_low := pv &&& 0xFFFF
  let pv_high := (pv >>> 16) &&& 0xFFFF
  let tid_xor_sid := tid ^^^ sid
  let pv_xor := pv_low ^^^ pv_high
  let shiny_value := tid_xor_sid ^^^ pv_xor
  let is_shiny := decide (shiny_value < 8)
  (is_shiny, shiny_value,
    [("pv_low", pv_low), ("pv_high", pv_high), ("tid_xor_sid", tid_xor_sid),
     ("pv_xor", pv_xor), ("shiny_value", shiny_value)])

/-- `check_shiny` from `src/utils/pokemon.py`: returns
`(False, 0, 0, {})` when the personality value at `pv_addr` is zero, else
`(is_shiny, pv, shiny_value, details)`. -/
def check_shiny (mem : Mem) (pv_addr : Nat) (tid sid : Nat) :
    Bool × Nat × Nat × List (String × Nat) :=
  let pv := read_u32 mem pv_addr
  if pv = 0 then (false, 0, 0, [])
  else
    let r := calculate_shiny_value tid sid pv
    (r.1, pv, r.2.1, r.2.2)

/-- `convert_party_to_box` from `src/utils/pokemon.py`: `party_data[:80]`. -/
def convert_party_to_box (party_data : List Nat) : List Nat :=
  party_data.take 80

/-- The IV bit-field extraction of `decrypt_ivs` (`src/utils/pokemon.py`,
the dict built from `iv_data`): six 5-bit fields and their sum. -/
def extract_ivs (iv_data : Nat) : List (String × Nat) :=
  let hp := iv_data &&& 0x1F
  let atk := (iv_data >>> 5) &&& 0x1F
  let df := (iv_data >>> 10) &&& 0x1F
  let spe := (iv_data >>> 15) &&& 0x1F
  let spa := (iv_data >>> 20) &&& 0x1F
  let spd := (iv_data >>> 25) &&& 0x1F
  [("hp", hp), ("atk", atk), ("def", df), ("spe", spe), ("spa", spa), ("spd", spd),
   ("total", hp + atk + df + spe + spa + spd)]

/-- `decrypt_ivs` from `src/utils/pokemon.py`: `None` on an empty slot, else the
decrypted IV dict read from the Misc substructure at offset 4. -/
def decrypt_ivs (mem : Mem) (base_addr : Nat) : Option (List (String × Nat)) :=
  let pv := read_u32 mem base_addr
  if pv = 0 then none
  else
    let order := get_substructure_order pv
    let misc_pos := order.toList.indexOf 'M'
    let misc_offset := misc_pos * SUBSTRUCTURE_SIZE
    let iv_addr := base_addr + POKEMON_ENCRYPTED_OFFSET + misc_offset + 4
    let enc_val := read_u32 mem iv_addr
    let iv_data := enc_val ^^^ xor_key mem base_addr
    some (extract_ivs iv_data)

/-- `read_level` from `src/utils/pokemon.py`: 0 on an empty slot, else the byte
at offset `ENEMY_LEVEL_OFFSET` (0x54). -/
def read_level (mem : Mem) (base_addr : Nat) : Nat :=
  let pv := read_u32 mem base_addr
  if pv = 0 then 0
  else read_u8 mem (base_addr + ENEMY_LEVEL_OFFSET)

/-- The raw decrypted species index computed in `decrypt_species`
(`src/utils/pokemon.py`): the low 16 bits of the first decrypted word of
the Growth substructure, `(enc_val ^ xor_key) & 0xFFFF`. -/
def raw_species_id (mem : Mem) (base_addr : Nat) : Nat :=
  let pv := read_u32 mem base_addr
  let order := get_substructure_order pv
  let growth_pos := order.toList.indexOf 'G'
  let enc_offset := growth_pos * SUBSTRUCTURE_SIZE
  let enc_val := read_u32 mem (base_addr + POKEMON_ENCRYPTED_OFFSET + enc_offset)
  (enc_val ^^^ xor_key mem base_addr) &&& 0xFFFF

/-- `decrypt_species` from `src/utils/pokemon.py` (debug printing dropped).
Modelled from the spec: `constants/species.py` (`NATIONAL_DEX` and
`get_national_dex`) is absent from the repository sources, and the spec
describes it as external game-version-specific table data; the two mappings
are therefore taken as parameters.  The species dict is keyed by `Int`
because the `-25` offset correction can probe a negative key in Python. -/
def decrypt_species (mem : Mem) (base_addr : Nat)
    (pokemon_species : Int → Option String)
    (NATIONAL_DEX : Nat → Option Nat) (get_national_dex : Nat → Nat) :
    Nat × Int × String :=
  let pv := read_u32 mem base_addr
  if pv = 0 then (0, 0, "(empty)")
  else
    let species_id := raw_species_id mem base_addr
    match pokemon_species (species_id : Int) with
    | some name => (pv, (species_id : Int), name)
    | none =>
      match (NATIONAL_DEX species_id).bind (fun internal_id =>
          (pokemon_species (internal_id : Int)).map
            (fun name => ((internal_id : Int), name))) with
      | some p => (pv, p.1, p.2)
      | none =>
        match pokemon_species ((get_national_dex species_id : Nat) : Int) with
        | some name => (pv, ((get_national_dex species_id : Nat) : Int), name)
        | none =>
          match pokemon_species ((species_id : Int) + (-25)) with
          | some name => (pv, (species_id : Int) + (-25), name)
          | none =>
            match pokemon_species ((species_id : Int) + 25) with
            | some name => (pv, (species_id : Int) + 25, name)
            | none => (pv, (species_id : Int), "Unknown(" ++ toString species_id ++ ")")

/-- `get_box_slot_address` from `src/constants/memory.py`: validates the box
and slot indices, raising `ValueError` (modelled as `Except.error`) when either
is out of range, else returning
`box_base + (box_num * POKEMON_PER_BOX + slot_num) * BOX_POKEMON_SIZE`. -/
def get_box_slot_address (box_base box_num slot_num : Int) : Except String Int :=
  if ¬ (0 ≤ box_num ∧ box_num < (NUM_BOXES : Int)) then
    Except.error ("Invalid box number: " ++ toString box_num ++ ". Must be 0-13.")
  else if ¬ (0 ≤ slot_num ∧ slot_num < (POKEMON_PER_BOX : Int)) then
    Except.error ("Invalid slot number: " ++ toString slot_num ++ ". Must be 0-29.")
  else
    Except.ok (box_base + (box_num * (POKEMON_PER_BOX : Int) + slot_num) * (BOX_POKEMON_SIZE : Int))

/-! ### Helper lemmas -/

theorem or_shiftLeft_distrib (a b n : Nat) :
    (a ||| b) <<< n = (a <<< n) ||| (b <<< n) := by
  apply Nat.eq_of_testBit_eq
  intro i
  simp [Nat.testBit_shiftLeft, Bool.and_or_distrib_left]

theorem and_thirtyone_eq_mod (a : Nat) : a &&& 31 = a % 32 := by
  have h := Nat.and_pow_two_sub_one_eq_mod a 5
  norm_num at h
  exact h

theorem mod_pow30_slice (x k : Nat) (hk : k + 5 ≤ 30) :
    x % 2 ^ 30 / 2 ^ k % 32 = x / 2 ^ k % 32 := by
  have h : (2 : Nat) ^ 30 = 2 ^ k * 2 ^ (30 - k) := by
    rw [← pow_add]
    congr 1
    omega
  rw [h, Nat.mod_mul_right_div_self]
  have h32 : (32 : Nat) ∣ 2 ^ (30 - k) := by
    have : (2 : Nat) ^ 5 ∣ 2 ^ (30 - k) := pow_dvd_pow 2 (by omega)
    simpa using this
  exact Nat.mod_mod_of_dvd _ h32

/-! ### Claims -/

/-- Claim C2 (confirmed): for 16-bit `tid`, `sid` and 32-bit `pv`, the shiny
classifier computes `shiny_value = (tid ^^^ sid) ^^^ (pv_low ^^^ pv_high)` and
classifies as shiny exactly when `shiny_value < 8`; the boundary cases
`shiny_value = 7` (shiny) and `shiny_value = 8` (not shiny) behave as stated. -/
theorem c2_shiny_classifier (tid sid pv : Nat)
    (htid : tid < 2 ^ 16) (hsid : sid < 2 ^ 16) (hpv : pv < 2 ^ 32) :
    (calculate_shiny_value tid sid pv).2.1 =
      (tid ^^^ sid) ^^^ ((pv &&& 0xFFFF) ^^^ ((pv >>> 16) &&& 0xFFFF)) ∧
    ((calculate_shiny_value tid sid pv).1 = true ↔
      (tid ^^^ sid) ^^^ ((pv &&& 0xFFFF) ^^^ ((pv >>> 16) &&& 0xFFFF)) < 8) ∧
    (calculate_shiny_value 7 0 0).2.1 = 7 ∧
    (calculate_shiny_value 7 0 0).1 = true ∧
    (calculate_shiny_value 8 0 0).2.1 = 8 ∧
    (calculate_shiny_value 8 0 0).1 = false := by
  refine ⟨rfl, ?_, by decide, by decide, by decide, by decide⟩
  simp [calculate_shiny_value]

/-- Witness for C2: the classifier applied at the concrete triple
`(1, 2, 3)`, whose bounds hold. -/
theorem c2_shiny_classifier_witness :
    (1 : Nat) < 2 ^ 16 ∧ (2 : Nat) < 2 ^ 16 ∧ (3 : Nat) < 2 ^ 32 ∧
    ((calculate_shiny_value 1 2 3).1 = true ↔
      ((1 : Nat) ^^^ 2) ^^^ ((3 &&& 0xFFFF) ^^^ ((3 >>> 16) &&& 0xFFFF)) < 8) :=
  ⟨by decide, by decide, by decide,
    (c2_shiny_classifier 1 2 3 (by decide) (by decide) (by decide)).2.1⟩

/-- Claim C3 (confirmed): the order resolver is total over all personality
values (the table index `pv % 24` is always in bounds and the lookup default is
never used), the table is exactly the 24 listed four-character strings in that
order, with no duplicates, and each entry is a permutation of `G,A,E,M`. -/
theorem c3_order_resolver :
    SUBSTRUCTURE_ORDERS.length = 24 ∧
    (∀ pv : Nat, ∃ h : pv % 24 < SUBSTRUCTURE_ORDERS.length,
      get_substructure_order pv = SUBSTRUCTURE_ORDERS.get ⟨pv % 24, h⟩) ∧
    SUBSTRUCTURE_ORDERS =
      ["GAEM", "GAME", "GEAM", "GEMA", "GMAE", "GMEA",
       "AGEM", "AGME", "AEGM", "AEMG", "AMGE", "AMEG",
       "EGAM", "EGMA", "EAGM", "EAMG", "EMGA", "EMAG",
       "MGAE", "MGEA", "MAGE", "MAEG", "MEGA", "MEAG"] ∧
    SUBSTRUCTURE_ORDERS.Nodup ∧
    (∀ s ∈ SUBSTRUCTURE_ORDERS, s.toList.Perm ['G', 'A', 'E', 'M']) := by
  refine ⟨rfl, ?_, rfl, by decide, by decide⟩
  intro pv
  have h : pv % 24 < SUBSTRUCTURE_ORDERS.length := by
    have h24 : pv % 24 < 24 := Nat.mod_lt _ (by omega)
    simpa [SUBSTRUCTURE_ORDERS] using h24
  refine ⟨h, ?_⟩
  simp [get_substructure_order, List.getD_eq_getElem?_getD, List.getElem?_eq_getElem h]

/-- Witness for C3: the resolver at `pv = 25` selects the entry of index 1,
which is a permutation of `G,A,E,M`. -/
theorem c3_order_resolver_witness :
    get_substructure_order 25 = "GAME" ∧
    "GAME" ∈ SUBSTRUCTURE_ORDERS ∧
    "GAME".toList.Perm ['G', 'A', 'E', 'M'] :=
  ⟨by decide, by decide, c3_order_resolver.2.2.2.2 "GAME" (by decide)⟩

/-- Claim C4 (confirmed): the XOR decryption step is its own inverse: applying
it twice with the same `otid`/`pv` key returns the original word, hence the
word-by-word round trip on any block of words is the identity. -/
theorem c4_decrypt_involution (x otid pv : Nat) (ws : List Nat) :
    decrypt_word (decrypt_word x otid pv) otid pv = x ∧
    (ws.map (fun w => decrypt_word w otid pv)).map (fun w => decrypt_word w otid pv) = ws := by
  have hword : ∀ y : Nat, decrypt_word (decrypt_word y otid pv) otid pv = y := by
    intro y
    unfold decrypt_word
    rw [Nat.xor_assoc, Nat.xor_self, Nat.xor_zero]
  refine ⟨hword x, ?_⟩
  rw [List.map_map]
  have : (fun w => decrypt_word w otid pv) ∘ (fun w => decrypt_word w otid pv) = id := by
    funext w
    exact hword w
  rw [this, List.map_id]

/-- Claim C1 (amended): for every record, the 32-bit XOR key used by the
substructure decryptors equals the full 32-bit word at record offset 4 — the
16-bit `original_trainer_id` in the low half together with the 16-bit
`original_secret_id` at offset 6 in the high half — XORed with the 32-bit
personality value; the secret-id bytes therefore participate in the key. -/
theorem c1_xor_key_full_otid (mem : Mem) (base_addr : Nat) :
    xor_key mem base_addr =
      (read_u16 mem (base_addr + 4) ||| (read_u16 mem (base_addr + 6) <<< 16)) ^^^
        read_u32 mem base_addr := by
  unfold xor_key
  congr 1
  unfold read_u32 read_u16 read_u8
  have h2 : base_addr + 4 + 2 = base_addr + 6 := by omega
  have h3 : base_addr + 4 + 3 = base_addr + 6 + 1 := by omega
  rw [h2, h3, or_shiftLeft_distrib, ← Nat.shiftLeft_add]
  simp [Nat.or_assoc]

/-- An all-zero memory: the record at any base address is an empty slot. -/
def mem_empty : Mem := fun _ => 0

/-- A memory holding an occupied record at base 0 (`pv = 1`), all other bytes
(including the level byte at offset 0x54) zero. -/
def mem_occupied : Mem := fun a => if a = 0 then 1 else 0

/-- `mem_occupied` with the secret-id byte at record offset 6 set to 1;
it agrees with `mem_occupied` at every other address. -/
def mem_sid_set : Mem := fun a => if a = 0 then 1 else if a = 6 then 1 else 0

/-- Counterexample to C1 as stated: two occupied records that agree on every
byte of the 80-byte record except the secret-id byte at offset 6 decrypt to
different IV outputs, and the key differs from the 16-bit trainer id
zero-extended XOR the personality value. -/
theorem c1_counterexample :
    (((List.range 80).filter (fun a => a != 6)).all
        (fun a => mem_occupied a == mem_sid_set a)) = true ∧
    read_u32 mem_occupied 0 ≠ 0 ∧
    decrypt_ivs mem_occupied 0 ≠ decrypt_ivs mem_sid_set 0 ∧
    xor_key mem_sid_set 0 ≠ read_u16 mem_sid_set 4 ^^^ read_u32 mem_sid_set 0 := by
  decide

/-- Claim C7 (confirmed): each IV field is the corresponding consecutive 5-bit
slice of the input word (bits 0–4, 5–9, 10–14, 15–19, 20–24, 25–29), each field
is at most 31, `total` is their sum and is at most 186, and bits 30–31 of the
input are ignored. -/
theorem c7_iv_extraction (x : Nat) (hx : x < 2 ^ 32) :
    extract_ivs x =
      [("hp", x % 32), ("atk", x / 2 ^ 5 % 32), ("def", x / 2 ^ 10 % 32),
       ("spe", x / 2 ^ 15 % 32), ("spa", x / 2 ^ 20 % 32), ("spd", x / 2 ^ 25 % 32),
       ("total", x % 32 + x / 2 ^ 5 % 32 + x / 2 ^ 10 % 32 + x / 2 ^ 15 % 32 +
          x / 2 ^ 20 % 32 + x / 2 ^ 25 % 32)] ∧
    (∀ p ∈ (extract_ivs x).take 6, p.2 ≤ 31) ∧
    (∀ p ∈ extract_ivs x, p.1 = "total" → p.2 ≤ 186) ∧
    extract_ivs x = extract_ivs (x % 2 ^ 30) := by
  have hslice : ∀ y : Nat, extract_ivs y =
      [("hp", y % 32), ("atk", y / 2 ^ 5 % 32), ("def", y / 2 ^ 10 % 32),
       ("spe", y / 2 ^ 15 % 32), ("spa", y / 2 ^ 20 % 32), ("spd", y / 2 ^ 25 % 32),
       ("total", y % 32 + y / 2 ^ 5 % 32 + y / 2 ^ 10 % 32 + y / 2 ^ 15 % 32 +
          y / 2 ^ 20 % 32 + y / 2 ^ 25 % 32)] := by
    intro y
    simp [extract_ivs, Nat.shiftRight_eq_div_pow, and_thirtyone_eq_mod]
  have hb : ∀ k : Nat, x >>> k &&& 31 ≤ 31 := fun k => Nat.and_le_right
  have hb0 : x &&& 31 ≤ 31 := Nat.and_le_right
  refine ⟨hslice x, ?_, ?_, ?_⟩
  · intro p hp
    simp [extract_ivs] at hp
    rcases hp with rfl | rfl | rfl | rfl | rfl | rfl
    · exact hb0
    · exact hb 5
    · exact hb 10
    · exact hb 15
    · exact hb 20
    · exact hb 25
  · intro p hp htot
    simp only [extract_ivs, List.mem_cons, List.not_mem_nil, or_false] at hp
    rcases hp with rfl | rfl | rfl | rfl | rfl | rfl | rfl
    · simp at htot
    · simp at htot
    · simp at htot
    · simp at htot
    · simp at htot
    · simp at htot
    · have h5 := hb 5
      have h10 := hb 10
      have h15 := hb 15
      have h20 := hb 20
      have h25 := hb 25
      simp only
      omega
  · rw [hslice x, hslice (x % 2 ^ 30)]
    have h0 : x % 2 ^ 30 % 32 = x % 32 := Nat.mod_mod_of_dvd _ (by norm_num)
    have h5 := mod_pow30_slice x 5 (by omega)
    have h10 := mod_pow30_slice x 10 (by omega)
    have h15 := mod_pow30_slice x 15 (by omega)
    have h20 := mod_pow30_slice x 20 (by omega)
    have h25 := mod_pow30_slice x 25 (by omega)
    rw [h0, h5, h10, h15, h20, h25]

/-- Witness for C7: the extractor at the all-ones 32-bit word, whose bound
holds and on which bits 30–31 are indeed ignored. -/
theorem c7_iv_extraction_witness :
    (0xFFFFFFFF : Nat) < 2 ^ 32 ∧
    extract_ivs 0xFFFFFFFF = extract_ivs (0xFFFFFFFF % 2 ^ 30) :=
  ⟨by norm_num, (c7_iv_extraction 0xFFFFFFFF (by norm_num)).2.2.2⟩

/-- On an occupied slot, the first component of `decrypt_species` is the
(nonzero) personality value, whatever lookup branch fires. -/
theorem decrypt_species_fst_of_ne (mem : Mem) (base_addr : Nat)
    (ps : Int → Option String) (nd : Nat → Option Nat) (gnd : Nat → Nat)
    (h : read_u32 mem base_addr ≠ 0) :
    (decrypt_species mem base_addr ps nd gnd).1 = read_u32 mem base_addr := by
  simp only [decrypt_species, if_neg h]
  (repeat' split) <;> rfl

/-- On an occupied slot, the second component of `check_shiny` is the
(nonzero) personality value. -/
theorem check_shiny_pv_of_ne (mem : Mem) (pv_addr tid sid : Nat)
    (h : read_u32 mem pv_addr ≠ 0) :
    (check_shiny mem pv_addr tid sid).2.1 = read_u32 mem pv_addr := by
  simp only [check_shiny, if_neg h]

/-- Claim C5 (amended): on a record with `personality_value = 0` the species
decryptor returns the sentinel `(0, 0, "(empty)")`, the IV decryptor returns
`none`, the shiny check returns `(false, 0, 0, [])` and the level reader
returns 0; for the species, IV and shiny extractors those sentinels are
distinct from every occupied-slot result, while the level reader's 0 can
coincide with an occupied record whose level byte is 0. -/
theorem c5_empty_slot_sentinels (mem1 mem2 : Mem) (base_addr : Nat)
    (ps : Int → Option String) (nd : Nat → Option Nat) (gnd : Nat → Nat)
    (tid sid : Nat)
    (h1 : read_u32 mem1 base_addr = 0) (h2 : read_u32 mem2 base_addr ≠ 0) :
    decrypt_species mem1 base_addr ps nd gnd = (0, 0, "(empty)") ∧
    decrypt_ivs mem1 base_addr = none ∧
    check_shiny mem1 base_addr tid sid = (false, 0, 0, []) ∧
    read_level mem1 base_addr = 0 ∧
    decrypt_species mem2 base_addr ps nd gnd ≠ (0, 0, "(empty)") ∧
    decrypt_ivs mem2 base_addr ≠ none ∧
    check_shiny mem2 base_addr tid sid ≠ (false, 0, 0, []) := by
  refine ⟨?_, ?_, ?_, ?_, ?_, ?_, ?_⟩
  · simp [decrypt_species, h1]
  · simp [decrypt_ivs, h1]
  · simp [check_shiny, h1]
  · simp [read_level, h1]
  · intro hc
    have hfst : (decrypt_species mem2 base_addr ps nd gnd).1 = 0 := by rw [hc]
    rw [decrypt_species_fst_of_ne mem2 base_addr ps nd gnd h2] at hfst
    exact h2 hfst
  · simp [decrypt_ivs, if_neg h2]
  · intro hc
    have hpv : (check_shiny mem2 base_addr tid sid).2.1 = 0 := by rw [hc]
    rw [check_shiny_pv_of_ne mem2 base_addr tid sid h2] at hpv
    exact h2 hpv

/-- Witness for C5: the amended statement applied to the concrete all-zero
memory (empty slot) and the concrete occupied memory with `pv = 1`. -/
theorem c5_empty_slot_sentinels_witness :
    read_u32 mem_empty 0 = 0 ∧ read_u32 mem_occupied 0 ≠ 0 ∧
    (decrypt_species mem_empty 0 (fun _ => none) (fun _ => none) (fun n => n) =
        (0, 0, "(empty)") ∧
     decrypt_ivs mem_empty 0 = none ∧
     check_shiny mem_empty 0 3 4 = (false, 0, 0, []) ∧
     read_level mem_empty 0 = 0 ∧
     decrypt_species mem_occupied 0 (fun _ => none) (fun _ => none) (fun n => n) ≠
        (0, 0, "(empty)") ∧
     decrypt_ivs mem_occupied 0 ≠ none ∧
     check_shiny mem_occupied 0 3 4 ≠ (false, 0, 0, [])) :=
  ⟨by decide, by decide,
    c5_empty_slot_sentinels mem_empty mem_occupied 0
      (fun _ => none) (fun _ => none) (fun n => n) 3 4 (by decide) (by decide)⟩

/-- Counterexample to C5 as stated: the level reader reports 0 for an empty
slot, and also returns 0 for an occupied record (`pv ≠ 0`) whose level byte is
0, so its empty-slot report is not distinct from every successful result. -/
theorem c5_counterexample :
    read_u32 mem_occupied 0 ≠ 0 ∧
    read_level mem_occupied 0 = 0 ∧
    read_u32 mem_empty 0 = 0 ∧
    read_level mem_empty 0 = 0 := by
  decide

/-- Claim C6 (amended): when the raw decrypted species index (the low 16 bits
of the first decrypted Growth word) is present in the caller-supplied species
dict, `decrypt_species` returns that raw index untranslated; otherwise the
function itself attempts National-Dex translation and ±25 offset corrections
and may return a translated index. -/
theorem c6_species_direct_match (mem : Mem) (base_addr : Nat)
    (ps : Int → Option String) (nd : Nat → Option Nat) (gnd : Nat → Nat)
    (name : String)
    (h : read_u32 mem base_addr ≠ 0)
    (hname : ps ((raw_species_id mem base_addr : Nat) : Int) = some name) :
    decrypt_species mem base_addr ps nd gnd =
      (read_u32 mem base_addr, ((raw_species_id mem base_addr : Nat) : Int), name) := by
  simp only [decrypt_species, if_neg h, hname]

/-- A species dict containing only the raw index 1. -/
def ps_direct : Int → Option String := fun i => if i = 1 then some "Bulbasaur" else none

/-- Witness for C6: the direct-match case on the concrete occupied record,
whose raw decrypted species index is 1. -/
theorem c6_species_direct_match_witness :
    read_u32 mem_occupied 0 ≠ 0 ∧
    ps_direct ((raw_species_id mem_occupied 0 : Nat) : Int) = some "Bulbasaur" ∧
    decrypt_species mem_occupied 0 ps_direct (fun _ => none) (fun n => n) =
      (1, 1, "Bulbasaur") := by
  refine ⟨by decide, by decide, ?_⟩
  have h := c6_species_direct_match mem_occupied 0 ps_direct (fun _ => none) (fun n => n)
      "Bulbasaur" (by decide) (by decide)
  have e1 : read_u32 mem_occupied 0 = 1 := by decide
  have e2 : raw_species_id mem_occupied 0 = 1 := by decide
  rw [e1, e2] at h
  simpa using h

/-- A memory whose occupied record at base 0 decrypts to raw species index 5. -/
def mem_c6 : Mem := fun a => if a = 0 then 1 else if a = 32 then 4 else 0

/-- A species dict containing only index 30, so only the `+25` offset
correction can match raw index 5. -/
def ps_c6 : Int → Option String := fun i => if i = 30 then some "OffsetHit" else none

/-- Counterexample to C6 as stated: on a record whose raw decrypted species
index is 5, with a species dict not containing 5, `decrypt_species` returns
the offset-corrected index 30 — a value adjusted by an offset correction, not
the raw internal index. -/
theorem c6_counterexample :
    raw_species_id mem_c6 0 = 5 ∧
    decrypt_species mem_c6 0 ps_c6 (fun _ => none) (fun n => n) = (1, 30, "OffsetHit") ∧
    (30 : Int) ≠ 5 := by
  decide

/-- Counterexample to C8 as stated: at the worked example's own inputs
(`trainer_id = 56078`, `secret_id = 24723`, `pv = 0x12345678`) the classifier's
details report `tid_xor_sid = 48029`, not the claimed 64517, and
`pv_xor = 17484`, not the claimed 17788. -/
theorem c8_counterexample :
    (calculate_shiny_value 56078 24723 0x12345678).2.2.getD 2 ("", 0) =
      ("tid_xor_sid", 48029) ∧
    (48029 : Nat) ≠ 64517 ∧
    (calculate_shiny_value 56078 24723 0x12345678).2.2.getD 3 ("", 0) =
      ("pv_xor", 17484) ∧
    (17484 : Nat) ≠ 17788 := by
  decide

/-- Claim C8 (amended): with `trainer_id = 56078` and `secret_id = 24723`,
`trainer_id XOR secret_id = 48029` (0xBB9D); with `pv = 0x12345678`,
`pv_low = 22136`, `pv_high = 4660`, `pv_xor = 17484`, and
`shiny_value = 48029 XOR 17484 = 65489`, classified not shiny. -/
theorem c8_worked_example :
    calculate_shiny_value 56078 24723 0x12345678 =
      (false, 65489,
        [("pv_low", 22136), ("pv_high", 4660), ("tid_xor_sid", 48029),
         ("pv_xor", 17484), ("shiny_value", 65489)]) := by
  decide

/-- Counterexample to C9 as stated: the party-to-box conversion applied to a
10-byte buffer returns that buffer unchanged — a result shorter than 80
bytes — and signals no error at all. -/
theorem c9_counterexample :
    convert_party_to_box (List.replicate 10 7) = List.replicate 10 7 ∧
    (convert_party_to_box (List.replicate 10 7)).length = 10 ∧
    (10 : Nat) < 80 := by
  decide

/-- Claim C9 (amended): `convert_party_to_box` performs no length validation
and defines no buffer error: it always returns the first `min(len, 80)` bytes,
and on any buffer shorter than 80 bytes it returns the buffer itself, a result
shorter than 80 bytes. -/
theorem c9_no_length_validation (party_data : List Nat) :
    (convert_party_to_box party_data).length = min party_data.length 80 ∧
    (party_data.length < 80 → convert_party_to_box party_data = party_data) := by
  constructor
  · unfold convert_party_to_box
    rw [List.length_take, Nat.min_comm]
  · intro h
    unfold convert_party_to_box
    exact List.take_of_length_le (Nat.le_of_lt h)

/-- Witness for C9: the amended statement applied to a concrete 12-byte
buffer. -/
theorem c9_no_length_validation_witness :
    (List.replicate 12 (0 : Nat)).length < 80 ∧
    convert_party_to_box (List.replicate 12 0) = List.replicate 12 0 :=
  ⟨by decide, (c9_no_length_validation (List.replicate 12 0)).2 (by decide)⟩

/-- Claim C10 (confirmed): `get_box_slot_address` errors exactly when
`box_num` is outside `[0, 13]` or `slot_num` is outside `[0, 29]`, and for all
in-range arguments returns `box_base + (box_num * 30 + slot_num) * 80` without
error. -/
theorem c10_box_slot_address (box_base box_num slot_num : Int) :
    ((box_num < 0 ∨ 13 < box_num ∨ slot_num < 0 ∨ 29 < slot_num) →
      ∃ e, get_box_slot_address box_base box_num slot_num = Except.error e) ∧
    (0 ≤ box_num → box_num ≤ 13 → 0 ≤ slot_num → slot_num ≤ 29 →
      get_box_slot_address box_base box_num slot_num =
        Except.ok (box_base + (box_num * 30 + slot_num) * 80)) := by
  simp only [get_box_slot_address, NUM_BOXES, POKEMON_PER_BOX, BOX_POKEMON_SIZE,
    Nat.cast_ofNat]
  constructor
  · intro h
    split
    next => exact ⟨_, rfl⟩
    next h1 =>
      split
      next => exact ⟨_, rfl⟩
      next h2 =>
        push_neg at h1 h2
        omega
  · intro hb0 hb13 hs0 hs29
    split
    next h1 => exact absurd ⟨hb0, by omega⟩ h1
    next =>
      split
      next h2 => exact absurd ⟨hs0, by omega⟩ h2
      next => rfl

/-- Witness for C10: the address formula at the in-range input
`(box_base, box_num, slot_num) = (100, 2, 3)`. -/
theorem c10_box_slot_address_witness :
    ((0 : Int) ≤ 2 ∧ (2 : Int) ≤ 13 ∧ (0 : Int) ≤ 3 ∧ (3 : Int) ≤ 29) ∧
    get_box_slot_address 100 2 3 = Except.ok (100 + (2 * 30 + 3) * 80) :=
  ⟨⟨by norm_num, by norm_num, by norm_num, by norm_num⟩,
    (c10_box_slot_address 100 2 3).2 (by norm_num) (by norm_num) (by norm_num) (by norm_num)⟩
